import Mathlib

set_option maxRecDepth 8000

/-!
Verification development for the terminal-emulation engine of pyTermTk
(`TTkWidgets/TTkTerminal/terminalview.py`): the escape-sequence decode
loop, the SGR color parser, the mouse/keyboard input encoders and the
PTY reader multiplexing loop are shallowly embedded as executable Lean
functions, and the spec's claims about them are settled as theorems.

Strings are represented as `List Char` (the python code works on decoded
text, not raw bytes).  Screens (`_TTkTerminalScreen`, a collaborator that
lives outside the decoder file) are represented by their interaction
log: the decoder's calls into the active screen (`pushLine`, CSI and C1
dispatches) are recorded as events, and the pending write color is kept
explicitly, which is all the decoder itself reads back.
-/

namespace TermEmu

/-- The escape character `0x1b` (`'\033'` in the source). -/
def escCh : Char := '\x1b'

/-- The BEL character `0x07` (`'\a'` in the source). -/
def belCh : Char := '\x07'

/-- Python `str.split(sep)` for a one-character separator: returns the
(nonempty) list of fragments between occurrences of `sep`, keeping empty
fragments, with `[[]]` for the empty string. -/
def splitOnCh (sep : Char) : List Char → List (List Char)
  | [] => [[]]
  | c :: cs =>
    if c = sep then [] :: splitOnCh sep cs
    else
      match splitOnCh sep cs with
      | [] => [[c]]
      | h :: t => (c :: h) :: t

/-- `out.split('\033')` from the decode loop. -/
def splitEsc (l : List Char) : List (List Char) := splitOnCh escCh l

/-- `mg[0].split(';')` from the SGR branch. -/
def splitSemi (l : List Char) : List (List Char) := splitOnCh ';' l

/-- Numeric value of a digit string (the happy path of python `int`). -/
def natOfDigits (l : List Char) : Nat :=
  l.foldl (fun a c => a * 10 + (c.toNat - 48)) 0

/-- Python `int(s)` on the strings that occur here (digits or empty):
`none` models the `ValueError` raised on the empty string. -/
def intOf (l : List Char) : Option Nat :=
  if !l.isEmpty && l.all Char.isDigit then some (natOfDigits l) else none

/-- A character of a CSI parameter list: digit or `;` (the character
class of group 1 of `re_CURSOR`). -/
def isCsiParamChar (c : Char) : Bool := c.isDigit || c = ';'

/-- The CSI final-byte class `[@^\x60A-Za-z]` of `re_CURSOR`. -/
def isCursorFinal (c : Char) : Bool :=
  c = '@' || c = '^' || c = '\x60' || ('A' ≤ c && c ≤ 'Z') || ('a' ≤ c && c ≤ 'z')

/-- A color value: an entry of the 16-color ansi map, of the 256-color
map, or a 24-bit triple (matching what the SGR branch can store in
`fg`/`bg`). -/
inductive ColorVal where
  | ansi16 (code : Nat)
  | c256 (n : Nat)
  | rgb (r g b : Nat)
deriving DecidableEq, Repr

/-- Modelled from the spec: `TTkColor` (module `TTkCore.color`, not in
src/) — "foreground/background color plus a bitmask of text attributes
…, with rules for merging SGR parameter updates"; the SGR branch builds
it as `TTkColor(fg=fg, bg=bg, mod=mod, clean=clean)`. -/
structure TColor where
  fg : Option ColorVal := none
  bg : Option ColorVal := none
  mod : Nat := 0
  clean : Bool := false
deriving DecidableEq, Repr

/-- Modelled from the spec: `TTkColor.RST`, the default color with no
attributes; `0` "resets all attributes and is distinguished from a
clean merge", so the reset color carries the `clean` mark. -/
def TColor.rst : TColor := { fg := none, bg := none, mod := 0, clean := true }

/-- Modelled from the spec: `TTkTermColor.SGR_SET` (module
`TTkCore.TTkTerm.colors`, not in src/) — bits OR-ed into the attribute
bitmask, keyed by SGR code (bold, italic, underline, blink, reverse,
strikethrough). -/
def SGR_SET (s : Nat) : Option Nat :=
  if s = 1 then some 1
  else if s = 3 then some 2
  else if s = 4 then some 4
  else if s = 5 then some 8
  else if s = 7 then some 16
  else if s = 9 then some 32
  else none

/-- Modelled from the spec: `TTkTermColor.SGR_RST` — masks AND-ed into
the attribute bitmask to clear the bit set by the matching SGR code. -/
def SGR_RST (s : Nat) : Option Nat :=
  if s = 22 then some 62
  else if s = 23 then some 61
  else if s = 24 then some 59
  else if s = 25 then some 55
  else if s = 27 then some 47
  else if s = 29 then some 31
  else none

/-- Modelled from the spec: `ansiMap16` (module
`TTkCore.TTkTerm.colors_ansi_map`, not in src/) — the 16-color table
keyed by the SGR code itself (30-37/90-97 foreground, 40-47/100-107
background); `dict.get` returns `none` off the table. -/
def ansiMap16 (s : Nat) : Option ColorVal :=
  if (30 ≤ s ∧ s ≤ 37) ∨ (90 ≤ s ∧ s ≤ 97) ∨ (40 ≤ s ∧ s ≤ 47) ∨ (100 ≤ s ∧ s ≤ 107)
  then some (ColorVal.ansi16 s) else none

/-- Modelled from the spec: `ansiMap256` — the 256-color table keyed by
the color number. -/
def ansiMap256 (n : Nat) : Option ColorVal :=
  if n ≤ 255 then some (ColorVal.c256 n) else none

/-- The ways the decode thread can die (uncaught python exceptions) or
stall forever; a result of this kind means the decode loop never reaches
the end of its input normally. -/
inductive DErr where
  /-- fuel exhaustion of the embedding; never reached from `runLoop`. -/
  | fuel
  /-- `IndexError` from `values.pop(0)` on an exhausted SGR parameter
  list (codes 38/48 missing their arguments). -/
  | sgrIndexErr
  /-- `ValueError` from `int` on an empty SGR parameter. -/
  | sgrValueErr
  /-- OSC terminator in a later read: `__processOSCInputGenerator`
  re-scans an exhausted generator, consumes all further input into
  `DCSstring` and finally returns `None`, which the caller unpacks. -/
  | oscStarved
  /-- `ValueError`: `__processOSCEscapeGenerator` unpacks the 3-tuple of
  `__checkOSCBell` into two names when the fragment after an open OSC
  does not begin with a backslash. -/
  | oscUnpackErr
  /-- `IndexError` from `__osc[0]` on an empty fragment after an open
  OSC. -/
  | oscIndexErr
  /-- `ValueError` from `int` on the empty `Ps` of a matched OSC
  string. -/
  | oscIntErr
  /-- `TypeError`: `__processDCSInputGenerator()` is called without its
  required positional argument when a DCS terminator is not in the
  current chunk. -/
  | dcsArgErr
  /-- `IndexError` from `dcs[0]` on an empty fragment after an open
  DCS. -/
  | dcsIndexErr
deriving DecidableEq, Repr

/-- The extended-color argument consumption shared by SGR codes 38 and
48 (the two twin blocks at lines 351-362): pop the sub-code, then for
`5;n` one 256-color index, for `2;r;g;b` three components; each pop on
an exhausted list is an `IndexError`, each `int` on an empty component
a `ValueError`.  Returns `some c` when the color variable is assigned
(possibly to the off-table `none` of `ansiMap256.get`), `none` when the
sub-code is neither 2 nor 5 and the variable is left untouched, plus
the remaining parameters. -/
def sgrExtColor : List (List Char) → Except DErr (Option (Option ColorVal) × List (List Char))
  | [] => .error .sgrIndexErr
  | t :: vs2 =>
    match intOf t with
    | none => .error .sgrValueErr
    | some tv =>
      if tv = 5 then
        match vs2 with
        | [] => .error .sgrIndexErr
        | n :: vs3 =>
          match intOf n with
          | none => .error .sgrValueErr
          | some nv => .ok (some (ansiMap256 nv), vs3)
      else if tv = 2 then
        match vs2 with
        | [] => .error .sgrIndexErr
        | r :: vs3 =>
          match intOf r with
          | none => .error .sgrValueErr
          | some rv =>
            match vs3 with
            | [] => .error .sgrIndexErr
            | g :: vs4 =>
              match intOf g with
              | none => .error .sgrValueErr
              | some gv =>
                match vs4 with
                | [] => .error .sgrIndexErr
                | b :: vs5 =>
                  match intOf b with
                  | none => .error .sgrValueErr
                  | some bv => .ok (some (some (ColorVal.rgb rv gv bv)), vs5)
      else .ok (none, vs2)

/-- The SGR parameter loop of `TTkTerminalView.loop` (lines 332-368):
iterates `values` left to right, consuming extra parameters inline for
codes 38/48 through `sgrExtColor`, and threads the warning count `w`
for the "Unhandled color" log line.  The fuel is the length of the
initial list, which bounds the iteration count since every step pops at
least one element. -/
def sgrLoop : Nat → List (List Char) → Option ColorVal → Option ColorVal → Nat → Bool → Nat →
    Except DErr (TColor × Nat)
  | _, [], fg, bg, md, cl, w => .ok (⟨fg, bg, md, cl⟩, w)
  | 0, _ :: _, _, _, _, _, _ => .error .fuel
  | fuel+1, v :: vs, fg, bg, md, cl, w =>
    match intOf v with
    | none => .error .sgrValueErr
    | some s =>
      if s = 0 then sgrLoop fuel vs none none 0 true w
      else if s = 39 then sgrLoop fuel vs none bg md cl w
      else if s = 49 then sgrLoop fuel vs fg none md cl w
      else if (30 ≤ s ∧ s ≤ 37) ∨ (90 ≤ s ∧ s ≤ 97) then
        sgrLoop fuel vs (ansiMap16 s) bg md cl w
      else if (40 ≤ s ∧ s ≤ 47) ∨ (100 ≤ s ∧ s ≤ 107) then
        sgrLoop fuel vs fg (ansiMap16 s) md cl w
      else if s = 38 then
        match sgrExtColor vs with
        | .error e => .error e
        | .ok p => sgrLoop fuel p.2 (p.1.getD fg) bg md cl w
      else if s = 48 then
        match sgrExtColor vs with
        | .error e => .error e
        | .ok p => sgrLoop fuel p.2 fg (p.1.getD bg) md cl w
      else
        match SGR_SET s with
        | some b => sgrLoop fuel vs fg bg (md ||| b) cl w
        | none =>
          match SGR_RST s with
          | some m2 => sgrLoop fuel vs fg bg (md &&& m2) cl w
          | none => sgrLoop fuel vs fg bg md cl (w + 1)

/-- The full SGR color computation of the decode loop (lines 320-369):
`'0'` or the empty parameter string short-circuit to the reset color;
otherwise the parameter list is folded over the current color of the
active screen.  Returns the new color and the number of
"Unhandled color" warnings. -/
def sgrColor (params : List Char) (cur : TColor) : Except DErr (TColor × Nat) :=
  if params = ['0'] ∨ params = [] then .ok (TColor.rst, 0)
  else
    let values := splitSemi params
    sgrLoop values.length values cur.fg cur.bg cur.mod false 0

/-- A match of `re_CURSOR = '^\[((\d*)(;(\d*))*)([@^\x60A-Za-z])'`:
the parameter run (digits and semicolons), the final byte and the
remainder of the fragment after the match. -/
structure CursorMatch where
  params : List Char
  final : Char
  rest : List Char
deriving DecidableEq, Repr

/-- `re_CURSOR.match(slice)`: after `[`, the regex matches the longest
run of digits/semicolons followed by a final byte (no shorter match is
possible since the parameter class and the final-byte class are
disjoint). -/
def matchCursor : List Char → Option CursorMatch
  | '[' :: cs =>
    let ps := cs.takeWhile isCsiParamChar
    match cs.dropWhile isCsiParamChar with
    | f :: r => if isCursorFinal f then some ⟨ps, f, r⟩ else none
    | [] => none
  | _ => none

/-- `re_DEC_SET_RST.match(slice)` for `'^\[(\??)(\d+)([lh])'`: returns
(private-mode flag, parameter, set-vs-reset, remainder). -/
def matchDecSetRst : List Char → Option (Bool × Nat × Bool × List Char)
  | '[' :: cs =>
    let p := match cs with
      | '?' :: r => (true, r)
      | _ => (false, cs)
    let ds := p.2.takeWhile Char.isDigit
    if ds.isEmpty then none
    else
      match p.2.dropWhile Char.isDigit with
      | 'l' :: r => some (p.1, natOfDigits ds, false, r)
      | 'h' :: r => some (p.1, natOfDigits ds, true, r)
      | _ => none
  | _ => none

/-- Group 2 of `re_CURSOR` (the first `\d*` of the parameter run). -/
def groupFirst (ps : List Char) : List Char := (splitSemi ps).headD []

/-- Group 4 of `re_CURSOR`: the last `\d*` of the repeated `;(\d*)`
group, or `none` when the repetition matched zero times (no `;`). -/
def groupLast (ps : List Char) : Option (List Char) :=
  let comps := splitSemi ps
  if comps.length ≥ 2 then some (comps.getLastD []) else none

/-- `re_OSC_ps_Pt.match(oscString)` for `'^(\d*);(.*)$'`: the longest
digit run must be followed by `;`; `.` cannot cross a newline and `$`
only tolerates one trailing newline, so the text part must otherwise be
newline-free. -/
def oscMatch (s : List Char) : Option (List Char × List Char) :=
  let core := if s.getLast? = some '\n' then s.dropLast else s
  let ds := core.takeWhile Char.isDigit
  match core.dropWhile Char.isDigit with
  | ';' :: pt => if pt.contains '\n' then none else some (ds, pt)
  | _ => none

/-- A call from the decoder into the active screen buffer
(`_TTkTerminalScreen` is a collaborator outside this file's source;
its state is a function of this call log). -/
inductive SEvent where
  /-- `pushLine(txt, irm=...)`. -/
  | pushLine (txt : List Char) (irm : Bool)
  /-- dispatch through `screen._CSI_MAP[fn](screen, ps, arg)`. -/
  | csiDispatch (fn : Char) (ps : Nat) (arg : Option Nat)
  /-- dispatch through `screen._C1_MAP[code](screen)`. -/
  | c1Dispatch (code : Char)
deriving DecidableEq, Repr

/-- One screen buffer as seen from the decoder: its pending write color
and the log of calls made into it. -/
structure Screen where
  color : TColor := {}
  events : List SEvent := []
deriving DecidableEq, Repr

/-- A protocol reply written back to the PTY by `_CSI_n_DSR`. -/
inductive POut where
  /-- `ESC[r;cR` cursor position report (`Ps = 6`); the row/column come
  from the screen, which is abstract here. -/
  | cursorReport
  /-- `ESC[0n` status-OK report (`Ps = 5`). -/
  | statusOk
deriving DecidableEq, Repr

/-- The `_Mouse` dataclass. -/
structure MouseSt where
  reportPress : Bool := false
  reportDrag : Bool := false
  reportMove : Bool := false
  sgrMode : Bool := false
deriving DecidableEq, Repr

/-- Modelled from the spec: `TTkTerminalModes.MODE_DECCKM`
(application-cursor-key flag bit; module not in src/). -/
def MODE_DECCKM : Nat := 1

/-- Modelled from the spec: `TTkTerminalModes.MODE_DECKPAM`
(application-keypad flag bit; module not in src/). -/
def MODE_DECKPAM : Nat := 2

/-- `flags &= ~bit` for a single-bit mask. -/
def clearFlag (f b : Nat) : Nat := f - (f &&& b)

/-- The decoder-visible state of the terminal view: both screens, which
one is current, the `_Terminal` and `_Keyboard`/`_Mouse` dataclasses,
the emitted `titleChanged` payloads, the protocol replies and the count
of warning log lines. -/
structure TermSt where
  screenNormal : Screen := {}
  screenAlt : Screen := {}
  altActive : Bool := false
  IRM : Bool := false
  bracketedMode : Bool := false
  dcsString : List Char := []
  keyboardFlags : Nat := 0
  mouse : MouseSt := {}
  titles : List (List Char) := []
  ptyOut : List POut := []
  warnCount : Nat := 0
deriving DecidableEq, Repr

/-- `self._screen_current` (read side). -/
def TermSt.curScreen (st : TermSt) : Screen :=
  if st.altActive then st.screenAlt else st.screenNormal

/-- Replace the current screen. -/
def TermSt.withCur (st : TermSt) (s : Screen) : TermSt :=
  if st.altActive then { st with screenAlt := s } else { st with screenNormal := s }

/-- `self._screen_current.pushLine(txt, irm=self._terminal.IRM)`. -/
def pushCur (st : TermSt) (txt : List Char) : TermSt :=
  st.withCur { st.curScreen with events := st.curScreen.events ++ [.pushLine txt st.IRM] }

/-- Record a CSI or C1 dispatch on the current screen. -/
def curEvent (st : TermSt) (e : SEvent) : TermSt :=
  st.withCur { st.curScreen with events := st.curScreen.events ++ [e] }

/-- One `_termLog.warn` line. -/
def warnSt (st : TermSt) : TermSt := { st with warnCount := st.warnCount + 1 }

/-- `w` accumulated warning lines. -/
def addWarns (st : TermSt) (w : Nat) : TermSt := { st with warnCount := st.warnCount + w }

/-- Lines 371-372 of the SGR branch: the freshly computed color is set
on the alternate and on the normal screen, unconditionally. -/
def setBothColors (st : TermSt) (c : TColor) : TermSt :=
  { st with screenAlt := { st.screenAlt with color := c },
            screenNormal := { st.screenNormal with color := c } }

/-- `self._screen_current.color()` — the pending write color the SGR
branch merges into. -/
def curColor (st : TermSt) : TColor := st.curScreen.color

/-- Modelled from the spec: `_TTkTerminal_CSI_DEC._CSI_DEC_SET_RST_MAP`
(file `terminalview_CSI_DEC.py`, not in src/) — DEC private set/reset
toggles a named mode through a lookup table: cursor-key mode (1), mouse
press/drag/move reporting (1000/1002/1003), SGR mouse encoding (1006),
alternate screen (47/1047/1049), bracketed paste (2004); unknown codes
are logged and ignored. -/
def CSI_DEC_SET_RST (st : TermSt) (ps : Nat) (s : Bool) : TermSt :=
  if ps = 1 then
    { st with keyboardFlags :=
        if s then st.keyboardFlags ||| MODE_DECCKM
        else clearFlag st.keyboardFlags MODE_DECCKM }
  else if ps = 1000 then { st with mouse := { st.mouse with reportPress := s } }
  else if ps = 1002 then { st with mouse := { st.mouse with reportDrag := s } }
  else if ps = 1003 then { st with mouse := { st.mouse with reportMove := s } }
  else if ps = 1006 then { st with mouse := { st.mouse with sgrMode := s } }
  else if ps = 2004 then { st with bracketedMode := s }
  else if ps = 47 ∨ ps = 1047 ∨ ps = 1049 then { st with altActive := s }
  else st

/-- `_CSI_SM_RM` (lines 1079-1085): standard mode 4 toggles
insert/replace mode; 34 only logs a warning; anything else logs an
error. -/
def CSI_SM_RM (st : TermSt) (ps : Nat) (s : Bool) : TermSt :=
  if ps = 4 then { st with IRM := s }
  else if ps = 34 then warnSt st
  else st

/-- `_CSI_n_DSR` (lines 978-983): device status report; `Ps = 6` writes
a cursor position report to the PTY, `Ps = 5` writes the OK status. -/
def CSI_n_DSR (st : TermSt) (ps : Nat) : TermSt :=
  if ps = 6 then { st with ptyOut := st.ptyOut ++ [.cursorReport] }
  else if ps = 5 then { st with ptyOut := st.ptyOut ++ [.statusOk] }
  else st

/-- `_CSI_Default_MAP` (lines 952-955) plus the `(1,1)` fallback: per
final byte, the defaults for a missing first and second parameter. -/
def csiDefaultMap (fn : Char) : Nat × Option Nat :=
  if fn = 'J' ∨ fn = 'K' then (0, none) else (1, some 1)

/-- `__processDCSEscapeGenerator` (lines 438-445) together with the
call fault at line 463: scan the remaining fragments of the chunk for
one starting with a backslash (`ESC \`), accumulating everything before
it into `DCSstring`; an empty fragment raises `IndexError` at `dcs[0]`,
and if the chunk ends first, `__processDCSInputGenerator()` is invoked
without its required argument, a `TypeError`. -/
def dcsScan : List (List Char) → TermSt → Except DErr (TermSt × List Char × List (List Char))
  | [], _ => .error .dcsArgErr
  | d :: rest, st =>
    match d with
    | [] => .error .dcsIndexErr
    | '\\' :: r => .ok (warnSt { st with dcsString := [] }, r, rest)
    | _ => dcsScan rest { st with dcsString := st.dcsString ++ d }

/-- `__checkOSCBell` (lines 696-702): if the fragment contains BEL, the
OSC string absorbs everything before the first BEL and the remainder of
the fragment is handed back; otherwise the whole fragment is absorbed.
Returns (terminator found, fragment remainder, new OSC string). -/
def oscCheckBell (s : List Char) (acc : List Char) : Bool × List Char × List Char :=
  let pre := s.takeWhile (fun c => c ≠ belCh)
  if pre.length < s.length then (true, s.drop (pre.length + 1), acc ++ pre)
  else (false, [], acc ++ s)

/-- Lines 738-749: once the OSC string is closed it is matched against
`re_OSC_ps_Pt`; `Ps` of 0, 1 or 2 emits `titleChanged` with `Pt`, other
codes are ignored, a non-match only logs; an empty `Ps` crashes `int`. -/
def oscEmit (st : TermSt) (osc : List Char) : Except DErr TermSt :=
  match oscMatch osc with
  | some (ds, pt) =>
    if ds.isEmpty then .error .oscIntErr
    else if natOfDigits ds ≤ 2 then .ok { st with titles := st.titles ++ [pt] }
    else .ok st
  | none => .ok (warnSt st)

/-- Line 281: the fragment before the first escape is plain text and is
pushed to the current screen only when nonempty. -/
def pushHead (st : TermSt) (t : List Char) : TermSt :=
  match t with
  | [] => st
  | _ => pushCur st t

/-- The fragment classifier/dispatcher of `TTkTerminalView.loop` (lines
285-774): processes the fragments of one chunk (the pieces between
escape bytes) in order.  `lu` is `leftUnhandled`, reset at the top of
every iteration and set only by the catch-all branch.  The DCS and OSC
branches consume further fragments of the same chunk through the shared
generator; when their terminator is not in the chunk the original code
crashes (see `DErr`), so no cross-chunk continuation state survives.
The fuel is an upper bound on iterations (each step consumes at least
one fragment); callers pass `length + 1`. -/
def goSlices : Nat → List (List Char) → TermSt → List Char → Except DErr (TermSt × List Char)
  | _, [], st, lu => .ok (st, lu)
  | 0, _ :: _, _, _ => .error .fuel
  | fuel+1, slice :: rest, st, _ =>
    match matchDecSetRst slice with
    | some (qm, ps, sr, after) =>
      let st2 := if qm then CSI_DEC_SET_RST st ps sr else CSI_SM_RM st ps sr
      goSlices fuel rest (pushCur st2 after) []
    | none =>
      match matchCursor slice with
      | some r =>
        if r.final = 'm' then
          match sgrColor r.params (curColor st) with
          | .error e => .error e
          | .ok cw =>
            goSlices fuel rest (pushCur (addWarns (setBothColors st cw.1) cw.2) r.rest) []
        else
          let dv := csiDefaultMap r.final
          let g1 := groupFirst r.params
          let yv := if g1.isEmpty then dv.1 else natOfDigits g1
          let xv := match groupLast r.params with
            | some g => if g.isEmpty then dv.2 else some (natOfDigits g)
            | none => dv.2
          let st2 := if r.final = 'n' then CSI_n_DSR st yv
                     else curEvent st (.csiDispatch r.final yv xv)
          goSlices fuel rest (pushCur st2 r.rest) []
      | none =>
        match slice with
        | [] => goSlices fuel rest (warnSt st) [escCh]
        | c :: after =>
          if c = '=' then
            let st2 := warnSt { st with keyboardFlags := st.keyboardFlags ||| MODE_DECKPAM }
            goSlices fuel rest (pushCur st2 after) []
          else if c = '>' then
            let st2 := warnSt { st with keyboardFlags := clearFlag st.keyboardFlags MODE_DECKPAM }
            goSlices fuel rest (pushCur st2 after) []
          else if c = 'P' then
            match dcsScan rest { st with dcsString := after } with
            | .error e => .error e
            | .ok t3 =>
              if t3.2.1.isEmpty then goSlices fuel t3.2.2 t3.1 []
              else goSlices fuel t3.2.2 (pushCur t3.1 t3.2.1) []
          else if c = ']' then
            let bell := oscCheckBell after []
            let r3 : Except DErr (List Char × List (List Char)) :=
              if bell.1 then .ok (bell.2.1, rest)
              else
                match rest with
                | [] => .error .oscStarved
                | [] :: _ => .error .oscIndexErr
                | ('\\' :: r2) :: rest2 => .ok (r2, rest2)
                | _ :: _ => .error .oscUnpackErr
            match r3 with
            | .error e => .error e
            | .ok p =>
              match oscEmit st bell.2.2 with
              | .error e => .error e
              | .ok st2 =>
                if p.1.isEmpty then goSlices fuel p.2 st2 []
                else goSlices fuel p.2 (pushCur st2 p.1) []
          else if c = 'D' ∨ c = 'E' ∨ c = 'H' ∨ c = 'M' ∨ c = 'O' ∨
                  c = 'V' ∨ c = 'W' ∨ c = 'X' ∨ c = 'Z' then
            goSlices fuel rest (pushCur (curEvent st (.c1Dispatch c)) after) []
          else
            goSlices fuel rest (warnSt st) (escCh :: c :: after)

/-- The outer chunk loop of `TTkTerminalView.loop` (lines 271-778):
`leftUnhandled` is prepended to each incoming chunk, the result is split
on the escape byte, the leading plain text is pushed, and the escape
fragments are dispatched.  Returns the final state and the final
`leftUnhandled`. -/
def loopGo : List (List Char) → TermSt → List Char → Except DErr (TermSt × List Char)
  | [], st, lu => .ok (st, lu)
  | out :: rest, st, lu =>
    let sout := splitEsc (lu ++ out)
    Except.bind
      (goSlices ((sout.drop 1).length + 1) (sout.drop 1) (pushHead st (sout.headD [])) [])
      (fun p => loopGo rest p.1 p.2)

/-- Feed a list of read chunks through the decode loop from the initial
state. -/
def runLoop (chunks : List (List Char)) : Except DErr (TermSt × List Char) :=
  loopGo chunks {} []

/-- The uncaught exception a run ends with, if any. -/
def runErr (chunks : List (List Char)) : Option DErr :=
  match runLoop chunks with
  | .error e => some e
  | .ok _ => none

/-- The `titleChanged` payloads emitted by a completed run. -/
def runTitles (chunks : List (List Char)) : Option (List (List Char)) :=
  match runLoop chunks with
  | .ok p => some p.1.titles
  | .error _ => none

/-- The final `leftUnhandled` of a completed run. -/
def runLeft (chunks : List (List Char)) : Option (List Char) :=
  match runLoop chunks with
  | .ok p => some p.2
  | .error _ => none

/-- The call log of the normal screen after a completed run. -/
def runNormalEvents (chunks : List (List Char)) : Option (List SEvent) :=
  match runLoop chunks with
  | .ok p => some p.1.screenNormal.events
  | .error _ => none

/-- The pending write colors of (normal, alternate) after a completed
run. -/
def runBothColors (chunks : List (List Char)) : Option (TColor × TColor) :=
  match runLoop chunks with
  | .ok p => some (p.1.screenNormal.color, p.1.screenAlt.color)
  | .error _ => none

/-- A fragment that falls through every recognizer to the catch-all
branch of the loop (line 769): no DEC set/reset match, no CSI match,
and a first character that selects none of the keypad, DCS, OSC or C1
branches (the empty fragment also lands here). -/
def isUnrecognized (slice : List Char) : Bool :=
  (matchDecSetRst slice).isNone && (matchCursor slice).isNone &&
  (match slice with
   | [] => true
   | c :: _ =>
     !(c = '=' || c = '>' || c = 'P' || c = ']' || c = 'D' || c = 'E' || c = 'H' ||
       c = 'M' || c = 'O' || c = 'V' || c = 'W' || c = 'X' || c = 'Z'))

/-- The mouse button constants used as `evt.key` (`TTkK` values; the
two middle-button aliases are distinct constants in the source dict). -/
inductive MBtn where
  | noButton
  | allButtons
  | leftButton
  | rightButton
  | midButton
  | middleButton
  | wheel
  | otherBtn
deriving DecidableEq, Repr

/-- The mouse event kinds used as `evt.evt`. -/
inductive MEvtKind where
  | press
  | release
  | move
  | drag
  | wheelUp
  | wheelDown
  | otherKind
deriving DecidableEq, Repr

/-- A widget mouse event as consumed by `_sendMouse`: button, kind and
0-based coordinates. -/
structure MouseEvt where
  key : MBtn
  evt : MEvtKind
  x : Nat
  y : Nat
deriving DecidableEq, Repr

/-- Bytes of an ASCII string (everything `_sendMouse` and `keyEvent`
emit for the claims is ASCII, where `encode()` is the identity on code
points). -/
def strBytes (s : String) : List Nat := s.toList.map Char.toNat

/-- The f-string `'\033[<{k+km};{x};{y}{pr}'` of the SGR mouse path. -/
def sgrMouseStr (kk x y : Nat) (pr : Char) : String :=
  "\x1b[<" ++ Nat.repr kk ++ ";" ++ Nat.repr x ++ ";" ++ Nat.repr y ++ pr.toString

/-- The legacy-mode header dict (lines 915-923): `b'\033[M'` plus the
button byte per event kind, with `b''` as the `dict.get` default. -/
def legacyMouseHead (k : MEvtKind) : List Nat :=
  match k with
  | .press => [27, 91, 77, 32]
  | .release => [27, 91, 77, 35]
  | .move => [27, 91, 77, 67]
  | .drag => [27, 91, 77, 64]
  | .wheelUp => [27, 91, 77, 96]
  | .wheelDown => [27, 91, 77, 97]
  | .otherKind => []

/-- `_sendMouse` (lines 884-929): `none` when nothing is written to the
PTY (the method returns `False`), otherwise the bytes written.  Note
the legacy coordinate bytes are `(x+32) % 0xff`, i.e. modulo 255. -/
def sendMouse (m : MouseSt) (e : MouseEvt) : Option (List Nat) :=
  if !m.reportPress then none
  else if !m.reportDrag && (e.evt = MEvtKind.drag ∨ e.evt = MEvtKind.move) then none
  else
    let x := e.x + 1
    let y := e.y + 1
    if m.sgrMode then
      let k : Nat :=
        match e.key with
        | .noButton => 3
        | .allButtons => 0
        | .leftButton => 0
        | .rightButton => 2
        | .midButton => 1
        | .middleButton => 1
        | .wheel => 64
        | .otherBtn => 0
      let kkp : Nat × Nat × Char :=
        match e.evt with
        | .press => (k, 0, 'M')
        | .release => (k, 0, 'm')
        | .move => (35, 0, 'M')
        | .drag => (k, 32, 'M')
        | .wheelUp => (k, 0, 'M')
        | .wheelDown => (k, 1, 'M')
        | .otherKind => (0, 0, 'M')
      some (strBytes (sgrMouseStr (kkp.1 + kkp.2.1) x y kkp.2.2))
    else
      some (legacyMouseHead e.evt ++ [(x + 32) % 255, (y + 32) % 255])

/-- `mouseMoveEvent` (lines 937-940): move events reach `_sendMouse`
only when move reporting is on. -/
def mouseMoveEvent (m : MouseSt) (e : MouseEvt) : Option (List Nat) :=
  if m.reportMove then sendMouse m e else none

/-- `evt.type` of a key event. -/
inductive KType where
  | special
  | character
deriving DecidableEq, Repr

/-- `evt.mod` of a key event (`TTkK` modifier constants). -/
inductive KMod where
  | noMod
  | controlMod
  | otherMod
deriving DecidableEq, Repr

/-- `evt.key` of a special key event (`TTkK.Key_...` constants). -/
inductive KCode where
  | keyUp
  | keyDown
  | keyRight
  | keyLeft
  | keyV
  | keyEnter
  | otherKey
deriving DecidableEq, Repr

/-- A widget key event as consumed by `keyEvent`: `evt.code` carries
the raw wire bytes of the key. -/
structure KeyEvt where
  ktype : KType
  kmod : KMod
  key : KCode
  code : String
deriving DecidableEq, Repr

/-- `pasteEvent` (lines 780-784): the text, wrapped in bracketed-paste
markers when that mode is on, written to the PTY. -/
def pasteEvent (bracketed : Bool) (txt : String) : List Nat :=
  strBytes (if bracketed then "\x1b[200~" ++ txt ++ "\x1b[201~" else txt)

/-- The DECCKM arrow-key remap dict of `keyEvent` (lines 795-798). -/
def cursorKeyCode (k : KCode) : Option String :=
  match k with
  | .keyUp => some ("\x1bOA")
  | .keyDown => some ("\x1bOB")
  | .keyRight => some ("\x1bOC")
  | .keyLeft => some ("\x1bOD")
  | _ => none

/-- `keyEvent` (lines 786-809): the bytes written to the PTY for a key
event.  Ctrl-V on a special key pastes the clipboard; arrows are
remapped only under DECCKM; everything else writes `evt.code`. -/
def keyEvent (flags : Nat) (bracketed : Bool) (clip : String) (e : KeyEvt) : List Nat :=
  if e.ktype = KType.special then
    if e.kmod = KMod.controlMod ∧ e.key = KCode.keyV then pasteEvent bracketed clip
    else if flags &&& MODE_DECCKM ≠ 0 then
      match cursorKeyCode e.key with
      | some s => strBytes s
      | none => strBytes e.code
    else strBytes e.code
  else strBytes e.code

/-- Readiness of the three descriptors `select` waits on in
`_inputGenerator` (line 235). -/
structure Ready where
  quitReady : Bool
  resizeReady : Bool
  ptyReady : Bool
deriving DecidableEq, Repr

/-- An observable action of the reader loop. -/
inductive REvent where
  /-- `_resizeScreen()` was applied. -/
  | resized
  /-- the PTY was drained and a chunk yielded. -/
  | readPty
  /-- the generator returned (quit). -/
  | exited
deriving DecidableEq, Repr

/-- The reader loop of `_inputGenerator` (lines 234-243), one iteration
per `select` wake-up: quit readiness is checked first and returns
immediately; otherwise a ready resize is applied and then a ready PTY
is drained. -/
def readerRun : List Ready → List REvent
  | [] => []
  | r :: rest =>
    if r.quitReady then [REvent.exited]
    else
      (if r.resizeReady then [REvent.resized] else []) ++
      (if r.ptyReady then [REvent.readPty] else []) ++ readerRun rest

/-- `true` when a `resized` action occurs strictly after an `exited`
action in a reader trace. -/
def hasResizeAfterExit (l : List REvent) : Bool :=
  (((l.dropWhile (fun e => !(e == REvent.exited))).drop 1).contains REvent.resized)

/-- `l` contains no occurrence of `sep`. -/
def noSep (sep : Char) (l : List Char) : Bool := l.all (fun c => !(c == sep))

theorem splitOnCh_ne_nil (sep : Char) (l : List Char) : splitOnCh sep l ≠ [] := by
  induction l with
  | nil => simp [splitOnCh]
  | cons c cs ih =>
    simp only [splitOnCh]
    split
    · simp
    · cases h : splitOnCh sep cs with
      | nil => simp
      | cons h t => simp

theorem splitOnCh_noSep (sep : Char) (l : List Char) (h : noSep sep l = true) :
    splitOnCh sep l = [l] := by
  induction l with
  | nil => rfl
  | cons c cs ih =>
    simp only [noSep, List.all_cons, Bool.and_eq_true, Bool.not_eq_true', beq_eq_false_iff_ne] at h
    simp only [splitOnCh, if_neg h.1]
    rw [ih (by simpa [noSep] using h.2)]

theorem splitOnCh_append_sep (sep : Char) (t r : List Char) (h : noSep sep t = true) :
    splitOnCh sep (t ++ sep :: r) = t :: splitOnCh sep r := by
  induction t with
  | nil => simp [splitOnCh]
  | cons c cs ih =>
    simp only [noSep, List.all_cons, Bool.and_eq_true, Bool.not_eq_true', beq_eq_false_iff_ne] at h
    simp only [List.cons_append, splitOnCh, if_neg h.1, List.append_eq]
    rw [ih (by simpa [noSep] using h.2)]

/-- The catch-all branch of the fragment dispatcher: an unrecognized
fragment logs a warning, sets `leftUnhandled` to the escape byte plus
the fragment, and is otherwise skipped (nothing is pushed). -/
theorem goSlices_unrecognized (fuel : Nat) (s : List Char) (rest : List (List Char))
    (st : TermSt) (lu : List Char) (h : isUnrecognized s = true) :
    goSlices (fuel + 1) (s :: rest) st lu = goSlices fuel rest (warnSt st) (escCh :: s) := by
  simp only [isUnrecognized, Bool.and_eq_true, Option.isNone_iff_eq_none] at h
  obtain ⟨⟨hdec, hcur⟩, hc⟩ := h
  cases s with
  | nil => simp [goSlices, hdec, hcur]
  | cons c after =>
    simp only [Bool.not_eq_true', Bool.or_eq_false_iff, decide_eq_false_iff_not] at hc
    obtain ⟨⟨⟨⟨⟨⟨⟨⟨⟨⟨⟨⟨h1, h2⟩, h3⟩, h4⟩, h5⟩, h6⟩, h7⟩, h8⟩, h9⟩, h10⟩, h11⟩, h12⟩, h13⟩ := hc
    simp only [goSlices, hdec, hcur, if_neg h1, if_neg h2, if_neg h3, if_neg h4]
    rw [if_neg]
    rintro (hx | hx | hx | hx | hx | hx | hx | hx | hx) <;>
      first
        | exact h5 hx
        | exact h6 hx
        | exact h7 hx
        | exact h8 hx
        | exact h9 hx
        | exact h10 hx
        | exact h11 hx
        | exact h12 hx
        | exact h13 hx

/-- C1: chunk-boundary invariance fails on the code.  The byte sequence
`ESC ] 2 ; h i ESC \` decoded as a single chunk completes and emits the
single titleChanged notification `hi`; the same sequence split into the
two reads `ESC ] 2 ; h i` and `ESC \` starves the OSC continuation (its
input-generator helper rescans an exhausted escape generator), emits no
notification, and the decode thread dies, so the two final states
differ. -/
theorem chunk_invariance_violated :
    runTitles [("\x1b]2;hi\x1b\\").toList] = some [("hi").toList]
  ∧ runErr [("\x1b]2;hi\x1b\\").toList] = none
  ∧ runTitles [("\x1b]2;hi").toList, ("\x1b\\").toList] = none
  ∧ runErr [("\x1b]2;hi").toList, ("\x1b\\").toList] = some DErr.oscStarved
  ∧ runLoop [("\x1b]2;hi\x1b\\").toList] ≠ runLoop [("\x1b]2;hi").toList, ("\x1b\\").toList] := by
  refine ⟨by decide, by decide, by decide, by decide, ?_⟩
  intro h
  have h2 : runErr [("\x1b]2;hi\x1b\\").toList] =
      runErr [("\x1b]2;hi").toList, ("\x1b\\").toList] := by
    unfold runErr
    rw [h]
  exact absurd h2 (by decide)

/-- C2 counterexample: in the chunk `ESC q ESC [ 0 m` the unrecognized
fragment `q` is followed by a recognized SGR fragment in the same
chunk; `leftUnhandled` is reset at the top of the next iteration, so
after the chunk nothing is retained (`leftUnhandled` is empty), and a
following chunk `Z` is decoded as plain text with no re-prepended
escape — the fragment was silently dropped, contradicting the claim.
For contrast, the same fragment as the last of its chunk is
retained. -/
theorem unhandled_fragment_dropped :
    runLeft [("\x1bq\x1b[0m").toList] = some []
  ∧ runNormalEvents [("\x1bq\x1b[0m").toList, ("Z").toList] =
      some [SEvent.pushLine [] false, SEvent.pushLine ['Z'] false]
  ∧ runLeft [("\x1bq\x1b[0m").toList, ("Z").toList] = some []
  ∧ runLeft [("\x1bq").toList] = some (('\x1b') :: ['q']) := by
  refine ⟨by decide, by decide, by decide, by decide⟩

/-- C3: `ESC ] 2 ; h e l l o BEL` in one chunk emits exactly one
titleChanged notification carrying `hello`; but `ESC ] 2 ; h e l l o`
in one read followed by `ESC \` in a later read emits nothing: the OSC
continuation helper appends later input to the DCS accumulator while
rescanning an exhausted generator, so the terminator is never seen and
the decode thread dies when input ends. -/
theorem osc_title_bel_once_but_split_st_lost :
    runTitles [("\x1b]2;hello\x07").toList] = some [("hello").toList]
  ∧ runTitles [("\x1b]2;hello").toList, ("\x1b\\").toList] = none
  ∧ runErr [("\x1b]2;hello").toList, ("\x1b\\").toList] = some DErr.oscStarved := by
  refine ⟨by decide, by decide, by decide⟩

/-- C8: the decode step does raise uncaught exceptions on malformed
SGR input: `ESC [ 3 8 m` (extended-color introducer with no following
arguments) raises `IndexError` from `values.pop(0)`, and `ESC [ ; m`
(empty numeric parameter) raises `ValueError` from `int`. -/
theorem sgr_malformed_crashes :
    runErr [("\x1b[38m").toList] = some DErr.sgrIndexErr
  ∧ runErr [("\x1b[48;2;1m").toList] = some DErr.sgrIndexErr
  ∧ runErr [("\x1b[;m").toList] = some DErr.sgrValueErr := by
  refine ⟨by decide, by decide, by decide⟩

/-- C9 counterexample: when a resize signal is queued and a quit signal
arrives before the reader's next wake-up, both pipes are ready at the
same `select` return; the quit check runs first and the generator
returns, so the already-queued resize is never applied, contradicting
the claim's second half. -/
theorem pending_resize_dropped_on_quit :
    readerRun [⟨true, true, false⟩] = [REvent.exited]
  ∧ REvent.resized ∉ readerRun [⟨true, true, false⟩] := by
  refine ⟨by decide, by decide⟩

/-- C6 counterexample: the legacy mouse coordinate bytes are computed
modulo 255 (`% 0xff`), not modulo 256.  For a press at 0-based
`x = 222` the 1-based coordinate plus 32 is 255; the code emits byte 0
where wrapping modulo 256 would give 255. -/
theorem legacy_mouse_mod256_fails :
    sendMouse ⟨true, false, false, false⟩ ⟨MBtn.leftButton, MEvtKind.press, 222, 2⟩ =
      some [27, 91, 77, 32, 0, 35]
  ∧ (222 + 1 + 32) % 256 = 255
  ∧ some [27, 91, 77, 32, 0, 35] ≠ some [27, 91, 77, 32, 255, 35] := by
  refine ⟨by decide, by decide, by decide⟩

/-- C7 counterexample: a special-key Ctrl-V event does not write its
raw key code to the PTY; it pastes the clipboard text instead, so the
universally quantified passthrough of the claim fails at this event. -/
theorem ctrl_v_key_not_raw :
    keyEvent 0 false ("XYZ") ⟨KType.special, KMod.controlMod, KCode.keyV, "\x16"⟩ =
      strBytes ("XYZ")
  ∧ strBytes ("XYZ") ≠ strBytes ("\x16") := by
  refine ⟨by decide, by decide⟩

/-- C2 (amended): the escape byte and an unrecognized fragment are
retained and re-prepended to the next chunk only when the fragment is
the last of its chunk: for a chunk consisting of plain text `t` followed
by the escape byte and an unrecognized trailing fragment `s`, the loop
pushes `t`, logs one warning, retains `ESC s` as `leftUnhandled`, and
processes the next chunk exactly as if `ESC s` had been prepended to
it.  (When further fragments follow in the same chunk the retained data
is discarded — see the counterexample.) -/
theorem unhandled_fragment_kept_when_last :
    ∀ (t s d : List Char) (rest : List (List Char)) (st : TermSt),
      noSep escCh t = true → noSep escCh s = true → isUnrecognized s = true →
      (loopGo ((t ++ escCh :: s) :: d :: rest) st [] =
        loopGo (d :: rest) (warnSt (pushHead st t)) (escCh :: s))
      ∧ (loopGo (d :: rest) (warnSt (pushHead st t)) (escCh :: s) =
        loopGo (((escCh :: s) ++ d) :: rest) (warnSt (pushHead st t)) []) := by
  intro t s d rest st ht hs hu
  have hsp : splitEsc (t ++ escCh :: s) = [t, s] := by
    simp only [splitEsc]
    rw [splitOnCh_append_sep escCh t s ht, splitOnCh_noSep escCh s hs]
  constructor
  · simp only [loopGo, List.nil_append, hsp]
    show Except.bind (goSlices (1 + 1) [s] (pushHead st t) [])
        (fun p => loopGo (d :: rest) p.1 p.2) = _
    rw [goSlices_unrecognized 1 s [] (pushHead st t) [] hu]
    rfl
  · simp only [loopGo, List.nil_append]

/-- C2 witness: instantiation of the amended retention law at the chunk
`A ESC q` followed by the chunk `Z`. -/
theorem unhandled_fragment_kept_when_last_witness :
    (loopGo ((['A'] ++ escCh :: ['q']) :: ['Z'] :: []) {} [] =
      loopGo (['Z'] :: []) (warnSt (pushHead {} ['A'])) (escCh :: ['q']))
  ∧ (loopGo (['Z'] :: []) (warnSt (pushHead {} ['A'])) (escCh :: ['q']) =
      loopGo (((escCh :: ['q']) ++ ['Z']) :: []) (warnSt (pushHead {} ['A'])) []) :=
  unhandled_fragment_kept_when_last ['A'] ['q'] ['Z'] [] {} (by decide) (by decide) (by decide)

/-- C4: SGR semantics.  A sole parameter `0` (and `ESC[0m` in
particular) yields the reset color, which is the default
(no fg, no bg, no attributes) and carries the clean mark; a `0` inside
a longer parameter list clears everything and turns on the clean mark;
codes 30-37/90-97 set only the foreground through the 16-color map and
40-47/100-107 set only the background; 39 resets only the foreground
and 49 only the background; `ESC[1;31m` yields bold (bit of SGR code 1)
plus the ansi color of code 31 as foreground with the background and
the other attributes taken unchanged from the current color. -/
theorem sgr_color_rules :
    (∀ cur : TColor, sgrColor ['0'] cur = .ok (TColor.rst, 0))
  ∧ TColor.rst = { fg := none, bg := none, mod := 0, clean := true }
  ∧ (∀ (fuel : Nat) (vs : List (List Char)) (fg bg : Option ColorVal) (md : Nat) (cl : Bool)
      (w : Nat), sgrLoop (fuel + 1) (['0'] :: vs) fg bg md cl w =
        sgrLoop fuel vs none none 0 true w)
  ∧ (∀ (fuel : Nat) (v : List Char) (s : Nat) (fg bg : Option ColorVal) (md : Nat) (cl : Bool)
      (w : Nat), intOf v = some s → ((30 ≤ s ∧ s ≤ 37) ∨ (90 ≤ s ∧ s ≤ 97)) →
      sgrLoop (fuel + 1) [v] fg bg md cl w = .ok (⟨ansiMap16 s, bg, md, cl⟩, w))
  ∧ (∀ (fuel : Nat) (v : List Char) (s : Nat) (fg bg : Option ColorVal) (md : Nat) (cl : Bool)
      (w : Nat), intOf v = some s → ((40 ≤ s ∧ s ≤ 47) ∨ (100 ≤ s ∧ s ≤ 107)) →
      sgrLoop (fuel + 1) [v] fg bg md cl w = .ok (⟨fg, ansiMap16 s, md, cl⟩, w))
  ∧ (∀ (fuel : Nat) (fg bg : Option ColorVal) (md : Nat) (cl : Bool) (w : Nat),
      sgrLoop (fuel + 1) [['3', '9']] fg bg md cl w = .ok (⟨none, bg, md, cl⟩, w))
  ∧ (∀ (fuel : Nat) (fg bg : Option ColorVal) (md : Nat) (cl : Bool) (w : Nat),
      sgrLoop (fuel + 1) [['4', '9']] fg bg md cl w = .ok (⟨fg, none, md, cl⟩, w))
  ∧ ansiMap16 31 = some (ColorVal.ansi16 31)
  ∧ SGR_SET 1 = some 1
  ∧ (∀ cur : TColor, sgrColor ['1', ';', '3', '1'] cur =
      .ok (⟨ansiMap16 31, cur.bg, cur.mod ||| 1, false⟩, 0)) := by
  refine ⟨?_, rfl, ?_, ?_, ?_, ?_, ?_, by decide, by decide, ?_⟩
  · intro cur
    simp [sgrColor]
  · intro fuel vs fg bg md cl w
    simp [sgrLoop, show intOf ['0'] = some 0 from by decide]
  · intro fuel v s fg bg md cl w hv hs
    have h0 : ¬s = 0 := by rcases hs with ⟨h1, _⟩ | ⟨h1, _⟩ <;> omega
    have h39 : ¬s = 39 := by rcases hs with ⟨h1, h2⟩ | ⟨h1, h2⟩ <;> omega
    have h49 : ¬s = 49 := by rcases hs with ⟨h1, h2⟩ | ⟨h1, h2⟩ <;> omega
    simp only [sgrLoop, hv]
    rw [if_neg h0, if_neg h39, if_neg h49, if_pos hs]
  · intro fuel v s fg bg md cl w hv hs
    have h0 : ¬s = 0 := by rcases hs with ⟨h1, _⟩ | ⟨h1, _⟩ <;> omega
    have h39 : ¬s = 39 := by rcases hs with ⟨h1, h2⟩ | ⟨h1, h2⟩ <;> omega
    have h49 : ¬s = 49 := by rcases hs with ⟨h1, h2⟩ | ⟨h1, h2⟩ <;> omega
    have hfg : ¬((30 ≤ s ∧ s ≤ 37) ∨ (90 ≤ s ∧ s ≤ 97)) := by
      rcases hs with ⟨h1, h2⟩ | ⟨h1, h2⟩ <;> omega
    simp only [sgrLoop, hv]
    rw [if_neg h0, if_neg h39, if_neg h49, if_neg hfg, if_pos hs]
  · intro fuel fg bg md cl w
    simp [sgrLoop, show intOf ['3', '9'] = some 39 from by decide]
  · intro fuel fg bg md cl w
    simp [sgrLoop, show intOf ['4', '9'] = some 49 from by decide]
  · intro cur
    simp only [sgrColor]
    rw [if_neg (by decide)]
    rw [show splitSemi ['1', ';', '3', '1'] = [['1'], ['3', '1']] from by decide]
    show sgrLoop (1 + 1) [['1'], ['3', '1']] cur.fg cur.bg cur.mod false 0 = _
    simp [sgrLoop, show intOf ['1'] = some 1 from by decide,
      show intOf ['3', '1'] = some 31 from by decide, SGR_SET]

/-- C4 witness: the foreground rule applied at code 31 over an
arbitrary-looking concrete prior color. -/
theorem sgr_color_rules_witness :
    intOf ['3', '1'] = some 31 ∧ (30 ≤ 31 ∧ 31 ≤ 37) ∧
    sgrLoop 1 [['3', '1']] none (some (ColorVal.c256 7)) 5 false 0 =
      .ok (⟨ansiMap16 31, some (ColorVal.c256 7), 5, false⟩, 0) :=
  ⟨by decide, by decide,
    sgr_color_rules.2.2.2.1 0 ['3', '1'] 31 none (some (ColorVal.c256 7)) 5 false 0
      (by decide) (Or.inl ⟨by decide, by decide⟩)⟩

/-- C5: SGR mouse reporting.  A left-button press at 0-based (4,2) with
press reporting on, drag/move reporting off and SGR mode on writes
exactly `ESC [ < 0 ; 5 ; 3 M`; with press reporting off nothing is
written for any event; drag events are suppressed when drag reporting
is off, and move events are suppressed when move reporting is off. -/
theorem sgr_mouse_press_encoding :
    sendMouse ⟨true, false, false, true⟩ ⟨MBtn.leftButton, MEvtKind.press, 4, 2⟩ =
      some (strBytes ("\x1b[<0;5;3M"))
  ∧ (∀ (rd rm sgr : Bool) (e : MouseEvt), sendMouse ⟨false, rd, rm, sgr⟩ e = none)
  ∧ (∀ (m : MouseSt) (e : MouseEvt), e.evt = MEvtKind.drag → m.reportDrag = false →
      sendMouse m e = none)
  ∧ (∀ (m : MouseSt) (e : MouseEvt), m.reportMove = false → mouseMoveEvent m e = none) := by
  refine ⟨by decide, ?_, ?_, ?_⟩
  · intro rd rm sgr e
    simp [sendMouse]
  · intro m e h1 h2
    cases hp : m.reportPress <;> simp [sendMouse, hp, h1, h2]
  · intro m e h
    simp [mouseMoveEvent, h]

/-- C5 witness: the drag-suppression rule applied at a concrete drag
event with drag reporting off. -/
theorem sgr_mouse_press_encoding_witness :
    (⟨MBtn.leftButton, MEvtKind.drag, 1, 1⟩ : MouseEvt).evt = MEvtKind.drag
  ∧ (⟨true, false, true, true⟩ : MouseSt).reportDrag = false
  ∧ sendMouse ⟨true, false, true, true⟩ ⟨MBtn.leftButton, MEvtKind.drag, 1, 1⟩ = none :=
  ⟨rfl, rfl, sgr_mouse_press_encoding.2.2.1 ⟨true, false, true, true⟩
    ⟨MBtn.leftButton, MEvtKind.drag, 1, 1⟩ rfl rfl⟩

/-- C10: the SGR branch sets the freshly computed color on both the
normal and the alternate screen, independently of which is active, so
switching the active buffer (DEC private modes 47/1047/1049) right
after an SGR never changes the pending write color; end to end,
decoding `ESC[31m` leaves both screens with the same pending color. -/
theorem sgr_sets_both_screens :
    (∀ (st : TermSt) (c : TColor),
      (setBothColors st c).screenNormal.color = c ∧ (setBothColors st c).screenAlt.color = c)
  ∧ (∀ (st : TermSt) (c : TColor) (ps : Nat) (s : Bool), ps = 47 ∨ ps = 1047 ∨ ps = 1049 →
      curColor (CSI_DEC_SET_RST (setBothColors st c) ps s) = c)
  ∧ (∀ (st : TermSt) (c : TColor) (b : Bool),
      curColor { setBothColors st c with altActive := b } = c)
  ∧ runBothColors [('\x1b') :: ("[31m").toList] =
      some (⟨ansiMap16 31, none, 0, false⟩, ⟨ansiMap16 31, none, 0, false⟩) := by
  refine ⟨?_, ?_, ?_, by decide⟩
  · intro st c
    exact ⟨rfl, rfl⟩
  · intro st c ps s h
    rcases h with rfl | rfl | rfl <;>
      cases s <;>
        simp [CSI_DEC_SET_RST, curColor, TermSt.curScreen, setBothColors]
  · intro st c b
    cases b <;> simp [curColor, TermSt.curScreen, setBothColors]

/-- C10 witness: switching to the alternate screen via DEC private mode
1049 immediately after setting a concrete color on both screens leaves
that color current. -/
theorem sgr_sets_both_screens_witness :
    ((1049 : Nat) = 47 ∨ (1049 : Nat) = 1047 ∨ (1049 : Nat) = 1049)
  ∧ curColor (CSI_DEC_SET_RST (setBothColors {} TColor.rst) 1049 true) = TColor.rst :=
  ⟨Or.inr (Or.inr rfl),
    sgr_sets_both_screens.2.1 {} TColor.rst 1049 true (Or.inr (Or.inr rfl))⟩

/-- C6 (amended): every mouse event reported in legacy (non-SGR) mode
writes the event-kind header followed by the two coordinate bytes,
where each coordinate byte is the 1-based coordinate plus 32 wrapped
modulo 255 (the source computes `(x+32) % 0xff`); for each of the six
known event kinds the header is `ESC [ M` followed by one button
byte. -/
theorem legacy_mouse_packet_mod255 :
    (∀ (m : MouseSt) (e : MouseEvt) (bs : List Nat),
      m.sgrMode = false → sendMouse m e = some bs →
      bs = legacyMouseHead e.evt ++ [(e.x + 1 + 32) % 255, (e.y + 1 + 32) % 255])
  ∧ (∀ k : MEvtKind, k ≠ MEvtKind.otherKind →
      (legacyMouseHead k).take 3 = [27, 91, 77] ∧ (legacyMouseHead k).length = 4) := by
  constructor
  · intro m e bs hm hsend
    unfold sendMouse at hsend
    rw [hm] at hsend
    cases hp : m.reportPress with
    | false => rw [hp] at hsend; exact absurd hsend (by simp)
    | true =>
      rw [hp] at hsend
      simp only [Bool.not_true, Bool.false_eq_true, if_false] at hsend
      split_ifs at hsend with hdm
      exact (Option.some.inj hsend).symm
  · intro k hk
    cases k <;> simp_all [legacyMouseHead]

/-- C6 witness: the legacy packet law applied to a concrete left-button
press at 0-based (4,2). -/
theorem legacy_mouse_packet_mod255_witness :
    (⟨true, false, false, false⟩ : MouseSt).sgrMode = false
  ∧ sendMouse ⟨true, false, false, false⟩ ⟨MBtn.leftButton, MEvtKind.press, 4, 2⟩ =
      some [27, 91, 77, 32, 37, 35]
  ∧ ([27, 91, 77, 32, 37, 35] : List Nat) =
      legacyMouseHead MEvtKind.press ++ [(4 + 1 + 32) % 255, (2 + 1 + 32) % 255]
  ∧ (legacyMouseHead MEvtKind.press).take 3 = [27, 91, 77] :=
  ⟨rfl, by decide,
    legacy_mouse_packet_mod255.1 ⟨true, false, false, false⟩
      ⟨MBtn.leftButton, MEvtKind.press, 4, 2⟩ [27, 91, 77, 32, 37, 35] rfl (by decide),
    (legacy_mouse_packet_mod255.2 MEvtKind.press (by decide)).1⟩

/-- C7 (amended): under active DECCKM a special arrow key writes its
`ESC O {A,B,C,D}` code; any key event that is neither a special Ctrl-V
nor a DECCKM-remapped special arrow writes its raw `evt.code` bytes
unchanged; a special Ctrl-V instead pastes the clipboard text (wrapped
only in bracketed-paste mode). -/
theorem key_encoding_rules :
    (∀ (flags : Nat) (br : Bool) (clip : String) (e : KeyEvt) (s : String),
      e.ktype = KType.special → flags &&& MODE_DECCKM ≠ 0 →
      cursorKeyCode e.key = some s →
      keyEvent flags br clip e = strBytes s)
  ∧ (∀ (flags : Nat) (br : Bool) (clip : String) (e : KeyEvt),
      ¬(e.ktype = KType.special ∧ e.kmod = KMod.controlMod ∧ e.key = KCode.keyV) →
      ¬(e.ktype = KType.special ∧ flags &&& MODE_DECCKM ≠ 0 ∧ (cursorKeyCode e.key).isSome) →
      keyEvent flags br clip e = strBytes e.code)
  ∧ (∀ (flags : Nat) (br : Bool) (clip : String) (e : KeyEvt),
      e.ktype = KType.special → e.kmod = KMod.controlMod → e.key = KCode.keyV →
      keyEvent flags br clip e = pasteEvent br clip)
  ∧ cursorKeyCode KCode.keyUp = some ("\x1bOA")
  ∧ cursorKeyCode KCode.keyDown = some ("\x1bOB")
  ∧ cursorKeyCode KCode.keyRight = some ("\x1bOC")
  ∧ cursorKeyCode KCode.keyLeft = some ("\x1bOD") := by
  refine ⟨?_, ?_, ?_, rfl, rfl, rfl, rfl⟩
  · intro flags br clip e s ht hf hc
    have hv : ¬(e.kmod = KMod.controlMod ∧ e.key = KCode.keyV) := by
      rintro ⟨_, hk⟩
      rw [hk] at hc
      exact Option.noConfusion hc
    simp [keyEvent, ht, hv, hf, hc]
  · intro flags br clip e h1 h2
    by_cases ht : e.ktype = KType.special
    · have hv : ¬(e.kmod = KMod.controlMod ∧ e.key = KCode.keyV) := fun hx => h1 ⟨ht, hx.1, hx.2⟩
      by_cases hf : flags &&& MODE_DECCKM ≠ 0
      · have hcc : cursorKeyCode e.key = none := by
          cases hcc : cursorKeyCode e.key with
          | none => rfl
          | some s => exact absurd ⟨ht, hf, by rw [hcc]; rfl⟩ h2
        simp [keyEvent, ht, hv, hf, hcc]
      · simp [keyEvent, ht, hv, hf]
    · simp [keyEvent, ht]
  · intro flags br clip e ht hm hk
    simp [keyEvent, ht, hm, hk]

/-- C7 witness: the DECCKM arrow remap applied to a concrete Up-arrow
event with the mode bit set. -/
theorem key_encoding_rules_witness :
    (⟨KType.special, KMod.noMod, KCode.keyUp, "x"⟩ : KeyEvt).ktype = KType.special
  ∧ (1 : Nat) &&& MODE_DECCKM ≠ 0
  ∧ cursorKeyCode KCode.keyUp = some ("\x1bOA")
  ∧ keyEvent 1 false ("") ⟨KType.special, KMod.noMod, KCode.keyUp, "x"⟩ =
      strBytes ("\x1bOA") :=
  ⟨rfl, by decide, rfl,
    key_encoding_rules.1 1 false ("") ⟨KType.special, KMod.noMod, KCode.keyUp, "x"⟩
      ("\x1bOA") rfl (by decide) rfl⟩

/-- C9 (amended): quit has priority in the reader loop.  A reader trace
never applies a resize after exiting; a wake-up with the quit pipe
ready exits immediately without applying a pending resize, even one
queued before the quit; a wake-up with only the resize pipe ready
applies the resize and the reader keeps running, so a resize observed
at an earlier wake-up than the quit is applied before exit. -/
theorem reader_quit_priority :
    (∀ rs : List Ready, hasResizeAfterExit (readerRun rs) = false)
  ∧ (∀ (r : Ready) (rest : List Ready), r.quitReady = true →
      readerRun (r :: rest) = [REvent.exited])
  ∧ (∀ (r : Ready) (rest : List Ready), r.quitReady = false → r.resizeReady = true →
      ∃ t, readerRun (r :: rest) = REvent.resized :: t) := by
  refine ⟨?_, ?_, ?_⟩
  · intro rs
    induction rs with
    | nil => rfl
    | cons r rest ih =>
      cases hq : r.quitReady with
      | true => simp [readerRun, hq, hasResizeAfterExit, List.dropWhile]
      | false =>
        cases hr : r.resizeReady <;> cases hp : r.ptyReady <;>
          simpa [readerRun, hq, hr, hp, hasResizeAfterExit, List.dropWhile] using ih
  · intro r rest h
    simp [readerRun, h]
  · intro r rest hq hr
    exact ⟨(if r.ptyReady then [REvent.readPty] else []) ++ readerRun rest,
      by simp [readerRun, hq, hr]⟩

/-- C9 witness: the quit-priority law applied to a wake-up with quit
and resize simultaneously ready, preceded by a resize-only wake-up. -/
theorem reader_quit_priority_witness :
    hasResizeAfterExit (readerRun [⟨false, true, false⟩, ⟨true, true, false⟩]) = false
  ∧ (⟨true, true, false⟩ : Ready).quitReady = true
  ∧ readerRun [(⟨true, true, false⟩ : Ready)] = [REvent.exited]
  ∧ (∃ t, readerRun [(⟨false, true, false⟩ : Ready), ⟨true, true, false⟩] =
      REvent.resized :: t) :=
  ⟨reader_quit_priority.1 [⟨false, true, false⟩, ⟨true, true, false⟩], rfl,
    reader_quit_priority.2.1 ⟨true, true, false⟩ [] rfl,
    reader_quit_priority.2.2 ⟨false, true, false⟩ [⟨true, true, false⟩] rfl rfl⟩

end TermEmu
